import Mathlib

set_option maxHeartbeats 1000000

/-!
Shallow embedding of the fcm-rust client (src/fcm.rs, src/oauth.rs, src/error.rs).

Rust `&str` / `String` values are modelled as `List Char` (called `Str` below), so
that the string-splitting functions of the source can be given as structurally
recursive, kernel-computable Lean functions mirroring Rust `str::split`,
`str::trim`, `Iterator::last`/`next` semantics.

Calls into external crates (serde_json decoding/encoding, jsonwebtoken signing,
base64) are modelled as explicit function parameters (`decS`, `decE`, `dec`,
`enc`, `ser`): the repository's code treats them as opaque total functions
returning `Option`/values, and every theorem below is parametric in them, so no
behaviour of the external crates is assumed beyond what a theorem's explicit
hypotheses state.
-/

namespace FcmRust

/-- Rust strings modelled as lists of characters. -/
abbrev Str := List Char

/-- The CRLF line separator `"\r\n"` used throughout `src/fcm.rs`. -/
def CRLF : Str := ['\r', '\n']

/-- The blank-line separator `"\r\n\r\n"` used in `parse_response`. -/
def CRLFCRLF : Str := CRLF ++ CRLF

/-- Whitespace predicate backing the model of Rust `str::trim`
(ASCII fragment of `char::is_whitespace`, enough for the protocol bodies). -/
def isWS (c : Char) : Bool := c = ' ' || c = '\t' || c = '\r' || c = '\n'

/-- Model of Rust `str::trim`: drop whitespace from both ends. -/
def trim (x : Str) : Str := ((x.dropWhile isWS).reverse.dropWhile isWS).reverse

/-- Worker for `splitOn`, structurally recursive on a fuel argument so that the
kernel can evaluate it. `acc` holds the current piece reversed. With
`fuel ≥ rest.length` the fuel never runs out (each step consumes a character). -/
def splitOnGo (sep : Str) : Nat → Str → Str → List Str
  | _, acc, [] => [acc.reverse]
  | 0, acc, rest => [acc.reverse ++ rest]
  | fuel + 1, acc, c :: rest =>
    if sep.isPrefixOf (c :: rest) then
      acc.reverse :: splitOnGo sep fuel [] (List.drop sep.length (c :: rest))
    else
      splitOnGo sep fuel (c :: acc) rest

/-- Model of Rust `str::split` with a non-empty string pattern: split on
non-overlapping, leftmost occurrences of `sep`, keeping empty pieces
(`"a--".split("--") == ["a", ""]`, `"".split("--") == [""]`). -/
def splitOn (sep x : Str) : List Str :=
  if sep.isEmpty then [x] else splitOnGo sep x.length [] x

/-- `SendMessageSuccessResponse` from src/fcm.rs. -/
structure SendMessageSuccessResponse where
  name : Str
deriving DecidableEq, Repr

/-- `SendMessageError` from src/fcm.rs. -/
structure SendMessageError where
  code : Nat
  message : Str
  status : Str
deriving DecidableEq, Repr

/-- `SendMessageErrorResponse` from src/fcm.rs. -/
structure SendMessageErrorResponse where
  error : SendMessageError
deriving DecidableEq, Repr

/-- `Error` from src/error.rs (the `serde_json::Error` / `reqwest::Error`
payloads are opaque and dropped). -/
inductive Error where
  | ResponseDeserialize
  | Reqwest
  | SendMessage (e : SendMessageErrorResponse)
deriving DecidableEq, Repr

/-- The per-item result type `Result<SendMessageSuccessResponse, SendMessageErrorResponse>`. -/
abbrev SendResult := Except SendMessageErrorResponse SendMessageSuccessResponse

/-- `FirebaseCloudMessaging::parse_response` from src/fcm.rs lines 179-199.
`decS` and `decE` model `serde_json::from_str` for the success and error
shapes. The source takes the last `"\r\n\r\n"`-separated segment
(`split.last().unwrap_or_default()`), its first `"\r\n"` line
(`split.next().unwrap_or_default()`), and tries: first line as success,
whole payload as success, whole payload as error. -/
def parse_response (decS : Str → Option SendMessageSuccessResponse)
    (decE : Str → Option SendMessageErrorResponse) (x : Str) :
    Except Error SendResult :=
  let x := (splitOn CRLFCRLF x).getLastD []
  let xx := (splitOn CRLF x).headD []
  match decS xx with
  | some r => .ok (.ok r)
  | none =>
    match decS x with
    | some r => .ok (.ok r)
    | none =>
      match decE x with
      | some r => .ok (.error r)
      | none => .error .ResponseDeserialize

/-- The fragment selection of `parse_batch_response` (src/fcm.rs lines 171-174):
split on `--<boundary>`, trim each fragment, drop empty fragments. -/
def retained_fragments (x boundary : Str) : List Str :=
  ((splitOn (['-', '-'] ++ boundary) x).map trim).filter (fun s => !s.isEmpty)

/-- Rust `collect::<Result<Vec<_>, _>>()` over an iterator of results:
stop at the first `error`, otherwise gather all `ok` payloads in order. -/
def collect_results {ε β : Type} : List (Except ε β) → Except ε (List β)
  | [] => .ok []
  | x :: xs =>
    match x with
    | .error e => .error e
    | .ok b =>
      match collect_results xs with
      | .error e => .error e
      | .ok bs => .ok (b :: bs)

/-- `FirebaseCloudMessaging::parse_batch_response` from src/fcm.rs lines 162-177:
take `batch_len` retained fragments, parse each, and collect, short-circuiting
on the first error. -/
def parse_batch_response (decS : Str → Option SendMessageSuccessResponse)
    (decE : Str → Option SendMessageErrorResponse)
    (x boundary : Str) (batch_len : Nat) : Except Error (List SendResult) :=
  collect_results
    (((retained_fragments x boundary).take batch_len).map (parse_response decS decE))

/-- The characters of `"boundary="`. -/
def boundaryKey : Str := ['b', 'o', 'u', 'n', 'd', 'a', 'r', 'y', '=']

/-- `FirebaseCloudMessaging::parse_boundary` from src/fcm.rs lines 201-209:
split the content type on `';'`, trim, find the first piece starting with
`"boundary="`, and strip that key (`replacen("boundary=", "", 1)` on a string
that starts with the pattern removes exactly that leading occurrence). -/
def parse_boundary (x : Str) : Option Str :=
  (((splitOn [';'] x).map trim).find? (fun s => boundaryKey.isPrefixOf s)).map
    (fun s => s.drop boundaryKey.length)

/-- `Message` from src/fcm.rs. -/
structure Message where
  title : Str
  body : Str
deriving DecidableEq, Repr

/-- `Priority` from src/fcm.rs. -/
inductive Priority where
  | Low
  | Normal
  | High
deriving DecidableEq, Repr

/-- The `impl Default for Priority` of src/fcm.rs lines 253-257: `Normal`.
Note `to_apns_payload` does not use this default; it uses `unwrap_or(High)`. -/
def Priority.default : Priority := .Normal

/-- `SendOptions` from src/fcm.rs. -/
structure SendOptions where
  content_available : Option Bool
  mutable_content : Option Bool
  priority : Option Priority
deriving DecidableEq, Repr

/-- `ApnsPayload` from src/fcm.rs: `u8` fields, each `serde(skip_serializing_if
Option::is_none)`, so a `none` field is left off the wire and a `some` field
is emitted. -/
structure ApnsPayload where
  mutable_content : Option Nat
  content_available : Option Nat
  priority : Option Nat
deriving DecidableEq, Repr

/-- `Aps` wrapper from src/fcm.rs. -/
structure Aps where
  aps : ApnsPayload
deriving DecidableEq, Repr

/-- `WrappedApnsPayload` wrapper from src/fcm.rs. -/
structure WrappedApnsPayload where
  payload : Aps
deriving DecidableEq, Repr

/-- `SendOptions::to_apns_payload` from src/fcm.rs lines 268-288. -/
def SendOptions.to_apns_payload (o : SendOptions) : WrappedApnsPayload :=
  let mutable_content := o.mutable_content.getD false
  let content_available := o.content_available.getD false
  let priority : Nat :=
    match o.priority.getD Priority.High with
    | .Low => 1
    | .Normal => 5
    | .High => 10
  { payload := { aps := {
      mutable_content := some (if mutable_content then 1 else 0),
      content_available := some (if content_available then 1 else 0),
      priority := some priority } } }

/-- `Body` from src/fcm.rs (the generic data payload `D` is carried opaquely;
its `serde(skip_serializing_if Option::is_none)` behaviour lives inside the
opaque serializer parameter). -/
structure Body (D : Type) where
  token : Str
  notification : Message
  apns : Option WrappedApnsPayload
  data : Option D

/-- `FirebaseCloudMessaging::BOUNDARY` from src/fcm.rs line 48. -/
def BOUNDARY : Str := "fcm_rust_sdk".data

/-- `FirebaseCloudMessaging::add_part` from src/fcm.rs lines 50-69. `ser`
models `serde_json::to_string_pretty` applied to `WrappedBody \x7b message:
body \x7d`; the ten pushed lines are modelled verbatim. -/
def add_part {D : Type} (ser : Body D → Str) (project_id oauth2_token : Str)
    (xs : List Str) (body : Body D) : List Str :=
  let serialized_body := ser body
  xs ++ [['-', '-'] ++ BOUNDARY,
         "Content-Type: application/http".data,
         "Content-Transfer-Encoding: binary".data,
         "Authorization: Bearer ".data ++ oauth2_token,
         [],
         "POST /v1/projects/".data ++ project_id ++ "/messages:send".data,
         "Content-Type: application/json".data,
         "accept: application/json".data,
         [],
         serialized_body]

/-- `FirebaseCloudMessaging::add_end_boundary` from src/fcm.rs lines 71-73:
push the single line `"--fcm_rust_sdk--\r\n"`. -/
def add_end_boundary (xs : List Str) : List Str :=
  xs ++ [['-', '-'] ++ BOUNDARY ++ ['-', '-', '\r', '\n']]

/-- The part-accumulating loop of `send_to_devices` (src/fcm.rs lines 93-104):
fold over the registration tokens, pushing one part per token and counting
`batch_len`. -/
def batch_parts {D : Type} (ser : Body D → Str) (project_id oauth2_token : Str)
    (message : Message) (options : SendOptions) (data : Option D)
    (registration_tokens : List Str) (init : List Str × Nat) : List Str × Nat :=
  registration_tokens.foldl
    (fun p registration_token =>
      (add_part ser project_id oauth2_token p.1
        { token := registration_token, notification := message,
          apns := some options.to_apns_payload, data := data }, p.2 + 1))
    init

/-- The HTTP response of the batch endpoint, as observed by `send_to_devices`:
status code, content-type header value (empty when missing, matching
`unwrap_or("")`), and body text. -/
structure Response where
  status : Nat
  content_type : Str
  body : Str

/-- The response dispatch of `send_to_devices` (src/fcm.rs lines 132-159):
on `(StatusCode::OK, Some(boundary))` parse the trimmed body as a batch
response; otherwise decode the raw body as a top-level
`SendMessageErrorResponse` (`decTop` models that `serde_json::from_str`) and
fail with `Error::SendMessage`, or with `Error::ResponseDeserialize` when even
that decode fails. -/
def handle_response (decS : Str → Option SendMessageSuccessResponse)
    (decE : Str → Option SendMessageErrorResponse)
    (decTop : Str → Option SendMessageErrorResponse)
    (batch_len : Nat) (res : Response) : Except Error (List SendResult) :=
  match res.status == 200, parse_boundary res.content_type with
  | true, some res_boundary =>
    parse_batch_response decS decE (trim res.body) res_boundary batch_len
  | _, _ =>
    match decTop res.body with
    | some e => .error (.SendMessage e)
    | none => .error .ResponseDeserialize

/-- `FirebaseCloudMessaging::send_to_devices` from src/fcm.rs lines 78-160,
instrumented: the first component is the request body handed to the transport
(`none` when the empty-batch short circuit at lines 106-108 returns before any
body is joined or any request is issued), and `res` is the transport's
response, consumed by the dispatch of lines 132-159. The bearer token is
fetched once (line 91) and is the single `oauth2_token` parameter. -/
def send_to_devices {D : Type} (decS : Str → Option SendMessageSuccessResponse)
    (decE : Str → Option SendMessageErrorResponse)
    (decTop : Str → Option SendMessageErrorResponse)
    (ser : Body D → Str) (project_id oauth2_token : Str)
    (registration_tokens : List Str) (message : Message) (options : SendOptions)
    (data : Option D) (res : Response) :
    Option Str × Except Error (List SendResult) :=
  let p := batch_parts ser project_id oauth2_token message options data
    registration_tokens ([], 0)
  let xs := p.1
  let batch_len := p.2
  if batch_len = 0 then (none, .ok [])
  else
    let body := List.intercalate CRLF (add_end_boundary xs)
    (some body, handle_response decS decE decTop batch_len res)

/-! ## src/oauth.rs -/

/-- The modulus of Rust `u64` arithmetic. -/
def U64_MOD : Nat := 2 ^ 64

/-- Rust `u64` subtraction `a - b`: a value only when `b ≤ a`; on underflow
the operation is an arithmetic-overflow program error (a panic under debug
assertions), modelled as `none`. -/
def u64_sub (a b : Nat) : Option Nat := if b ≤ a then some (a - b) else none

/-- `Payload` from src/oauth.rs (the JWT claims set). -/
structure Payload where
  sub : Str
  iss : Str
  aud : Str
  iat : Nat
  exp : Nat
deriving DecidableEq, Repr

/-- `Payload::new` from src/oauth.rs lines 114-127. `clock` models the `now()`
reading (seconds since the Unix epoch, a `u64`); `exp = iat + 3600` in `u64`
arithmetic, modelled with the `u64` wrap (theorems about `exp` assume the sum
stays below `2 ^ 64`, which every real epoch-second clock satisfies). -/
def Payload.new (clock : Nat) (client_email service_endpoint : Str) : Payload :=
  let iat := clock
  let exp := (iat + 3600) % U64_MOD
  { sub := client_email, iss := client_email, aud := service_endpoint,
    iat := iat, exp := exp }

/-- `GoogleOAuth2::check` from src/oauth.rs lines 211-216. `dec` models
`Self::decode_payload` (split the token on '.', base64-decode segment 1,
JSON-decode; any failure gives `none`, hence `false` here). The overall
result is `none` exactly when the `u64` computation `now() - payload.iat`
underflows, i.e. when the check is not defined. -/
def check (dec : Str → Option Payload) (clock : Nat) (oauth2_token : Str) :
    Option Bool :=
  match dec oauth2_token with
  | some payload => (u64_sub clock payload.iat).map (fun d => decide (d ≤ 3420))
  | none => some false

/-- `GoogleOAuth2::get_token` from src/oauth.rs lines 168-175: read the cached
value; return it only when `check` passes. The outer `Option` propagates the
partiality of `check` (`none` = the underflow panic); every defined outcome is
`some`. -/
def get_token (dec : Str → Option Payload) (clock : Nat) (cache : Option Str) :
    Option (Option Str) :=
  match cache with
  | some oauth2_token =>
    (check dec clock oauth2_token).map
      (fun b => if b then some oauth2_token else none)
  | none => some none

/-- `GoogleOAuth2::update_token` from src/oauth.rs lines 177-187: build a fresh
`Payload` at the current clock, sign it (`enc` models `Self::encode`, the
jsonwebtoken RS256 signing of header and claims), replace the cached value,
and return the new token. Result: (returned token, new cache contents). -/
def update_token (enc : Payload → Str) (clock : Nat)
    (client_email service_endpoint : Str) (_cache : Option Str) :
    Str × Option Str :=
  let payload := Payload.new clock client_email service_endpoint
  let oauth2_token := enc payload
  (oauth2_token, some oauth2_token)

/-- The token holder right after `GoogleOAuth2::from_credential` builds the
struct (src/oauth.rs line 160): `oauth2_token: Default::default()`, i.e.
`RwLock::new(None)` — the state before the constructor's own `update_token`
call on line 163 runs. -/
def initial_cache : Option Str := none

/-! ## Concrete instances used to evaluate the theorems on closed inputs -/

/-- A success decoder that never succeeds. -/
def decNoneS : Str → Option SendMessageSuccessResponse := fun _ => none

/-- An error decoder that never succeeds. -/
def decNoneE : Str → Option SendMessageErrorResponse := fun _ => none

/-- A success decoder that always succeeds with an empty message name. -/
def decAnyS : Str → Option SendMessageSuccessResponse := fun _ => some { name := [] }

/-- A success decoder accepting exactly the payload `"n"`. -/
def decLineS : Str → Option SendMessageSuccessResponse :=
  fun s => if s = ['n'] then some { name := ['n'] } else none

/-- A one-token signing model. -/
def encConst : Payload → Str := fun _ => ['t']

/-- A claims decoder returning the fixed claims issued at clock 1000. -/
def decConst : Str → Option Payload := fun _ => some (Payload.new 1000 ['e'] ['a'])

/-- A body serializer that emits the registration token. -/
def serToken : Body Unit → Str := fun b => b.token

/-- A batch body with exactly two retained fragments for boundary `"b"`:
`"--bz--bw"` splits into the empty preamble and the fragments `"z"`, `"w"`. -/
def twoFragmentBody : Str := ['-', '-', 'b', 'z', '-', '-', 'b', 'w']

/-- An empty notification. -/
def wMsg : Message := { title := [], body := [] }

/-- All-unset send options. -/
def wOpts : SendOptions :=
  { content_available := none, mutable_content := none, priority := none }

/-- A 200 response with empty headers and body. -/
def wRes200 : Response := { status := 200, content_type := [], body := [] }

/-- A 500 response with empty headers and body. -/
def wRes500 : Response := { status := 500, content_type := [], body := [] }

/-! ## Theorems -/

/-- A successful `collect_results` keeps one output per input. -/
theorem collect_results_ok_length {ε β : Type} :
    ∀ (l : List (Except ε β)) (rs : List β),
      collect_results l = .ok rs → rs.length = l.length := by
  intro l
  induction l with
  | nil =>
    intro rs h
    simp only [collect_results] at h
    cases h
    rfl
  | cons x xs ih =>
    intro rs h
    cases x with
    | error e => simp [collect_results] at h
    | ok b =>
      simp only [collect_results] at h
      cases hc : collect_results xs with
      | error e => rw [hc] at h; cases h
      | ok bs =>
        rw [hc] at h
        cases h
        simp [ih bs hc]

/-- C1 (amended): for every pair of shape decoders, body, boundary and
expected count, a non-error `parse_batch_response` returns at most
`batch_len` results, and exactly `batch_len` results whenever the body
contains at least `batch_len` retained (trimmed, non-empty) fragments; a
body with fewer fragments yields correspondingly fewer results instead of
an error. -/
theorem claim_c1 (decS : Str → Option SendMessageSuccessResponse)
    (decE : Str → Option SendMessageErrorResponse)
    (x boundary : Str) (batch_len : Nat) (rs : List SendResult)
    (h : parse_batch_response decS decE x boundary batch_len = .ok rs) :
    rs.length ≤ batch_len ∧
      (batch_len ≤ (retained_fragments x boundary).length →
        rs.length = batch_len) := by
  have hlen := collect_results_ok_length _ rs h
  rw [List.length_map, List.length_take] at hlen
  constructor
  · omega
  · intro hge; omega

/-- C1 as stated fails on the code: an empty response body yields a
successful empty result list for expected count 3 — neither an error nor
three results. -/
theorem claim_c1_counterexample :
    parse_batch_response decNoneS decNoneE [] ['b'] 3 = .ok [] ∧
      ¬ ((3 : Nat) = ([] : List SendResult).length) := ⟨rfl, by decide⟩

/-- C1 amended theorem evaluated on a two-fragment body with expected
count 2. -/
theorem claim_c1_witness :
    ([.ok { name := [] }, .ok { name := [] }] : List SendResult).length ≤ 2 ∧
      (2 ≤ (retained_fragments twoFragmentBody ['b']).length →
        ([.ok { name := [] }, .ok { name := [] }] : List SendResult).length = 2) :=
  claim_c1 decAnyS decNoneE twoFragmentBody ['b'] 2 _ rfl

/-- C9: an empty registration-token list short-circuits `send_to_devices` to
an empty result sequence, with no request body constructed (first component
`none`), whatever the decoders, serializer, message, options, data and
response. -/
theorem claim_c9 {D : Type} (decS : Str → Option SendMessageSuccessResponse)
    (decE : Str → Option SendMessageErrorResponse)
    (decTop : Str → Option SendMessageErrorResponse)
    (ser : Body D → Str) (project_id oauth2_token : Str) (message : Message)
    (options : SendOptions) (data : Option D) (res : Response) :
    send_to_devices decS decE decTop ser project_id oauth2_token [] message
      options data res = (none, .ok []) := rfl

/-- C8: the delivery metadata always carries all three APNs fields as `some`
values: the two booleans as 0/1 flags (1 exactly when the option is
`some true`, 0 when unset or `some false`, never omitted), and the priority
as 1/5/10 for Low/Normal/High with 10 when the priority is unset. -/
theorem claim_c8 (o : SendOptions) :
    ∃ m c p : Nat, o.to_apns_payload = ⟨⟨⟨some m, some c, some p⟩⟩⟩ ∧
      (m = 0 ∨ m = 1) ∧ (m = 1 ↔ o.mutable_content = some true) ∧
      (c = 0 ∨ c = 1) ∧ (c = 1 ↔ o.content_available = some true) ∧
      (o.priority = some .Low → p = 1) ∧ (o.priority = some .Normal → p = 5) ∧
      (o.priority = some .High ∨ o.priority = none → p = 10) := by
  obtain ⟨ca, mc, pr⟩ := o
  refine ⟨if mc.getD false then 1 else 0, if ca.getD false then 1 else 0,
    (match pr.getD Priority.High with
      | .Low => 1 | .Normal => 5 | .High => 10),
    rfl, ?_, ?_, ?_, ?_, ?_, ?_, ?_⟩
  · rcases mc with _ | b
    · simp
    · cases b <;> simp
  · rcases mc with _ | b
    · simp
    · cases b <;> simp
  · rcases ca with _ | b
    · simp
    · cases b <;> simp
  · rcases ca with _ | b
    · simp
    · cases b <;> simp
  · rcases pr with _ | pp
    · simp
    · cases pp <;> simp
  · rcases pr with _ | pp
    · simp
    · cases pp <;> simp
  · rcases pr with _ | pp
    · simp
    · cases pp <;> simp

/-- C4: for every fragment, `parse_response` takes as payload the text after
the last CRLF-CRLF separator (the whole fragment when none exists, since
splitting then returns the fragment itself), and attempts in order: the
payload's first CRLF-line as a success shape, the whole payload as a success
shape, the whole payload as an error shape; the first success wins and if all
three decodes fail the result is a deserialization error. Consequently a bare
single-line success payload and the same payload with trailing lines appended
(introducing no blank-line separator) decode to the same result. -/
theorem claim_c4 (decS : Str → Option SendMessageSuccessResponse)
    (decE : Str → Option SendMessageErrorResponse) :
    (∀ x payload firstLine,
      (splitOn CRLFCRLF x).getLastD [] = payload →
      (splitOn CRLF payload).headD [] = firstLine →
      ((∀ r, decS firstLine = some r →
          parse_response decS decE x = .ok (.ok r)) ∧
       (decS firstLine = none → ∀ r, decS payload = some r →
          parse_response decS decE x = .ok (.ok r)) ∧
       (decS firstLine = none → decS payload = none →
          ∀ e, decE payload = some e →
            parse_response decS decE x = .ok (.error e)) ∧
       (decS firstLine = none → decS payload = none → decE payload = none →
          parse_response decS decE x = .error .ResponseDeserialize))) ∧
    (∀ p extra r,
      splitOn CRLFCRLF p = [p] →
      splitOn CRLFCRLF (p ++ CRLF ++ extra) = [p ++ CRLF ++ extra] →
      (splitOn CRLF p).headD [] = p →
      (splitOn CRLF (p ++ CRLF ++ extra)).headD [] = p →
      decS p = some r →
      parse_response decS decE p = .ok (.ok r) ∧
      parse_response decS decE (p ++ CRLF ++ extra) = .ok (.ok r)) := by
  constructor
  · intro x payload firstLine hp hf
    refine ⟨?_, ?_, ?_, ?_⟩
    · intro r hr
      simp only [parse_response, hp, hf, hr]
    · intro h1 r h2
      simp only [parse_response, hp, hf, h1, h2]
    · intro h1 h2 e h3
      simp only [parse_response, hp, hf, h1, h2, h3]
    · intro h1 h2 h3
      simp only [parse_response, hp, hf, h1, h2, h3]
  · intro p extra r h1 h2 h3 h4 hr
    constructor
    · have hpay : (splitOn CRLFCRLF p).getLastD [] = p := by rw [h1]; rfl
      simp only [parse_response, hpay, h3, hr]
    · have hpay : (splitOn CRLFCRLF (p ++ CRLF ++ extra)).getLastD [] =
          p ++ CRLF ++ extra := by rw [h2]; rfl
      simp only [parse_response, hpay, h4, hr]

/-- C4 evaluated on the bare one-line payload and on the same payload with a
trailing line appended: same decoded result. -/
theorem claim_c4_witness :
    parse_response decLineS decNoneE ['n'] = .ok (.ok { name := ['n'] }) ∧
    parse_response decLineS decNoneE (['n'] ++ CRLF ++ ['x']) =
      .ok (.ok { name := ['n'] }) :=
  (claim_c4 decLineS decNoneE).2 ['n'] ['x'] { name := ['n'] }
    (by decide) (by decide) (by decide) (by decide) (by decide)

/-- Unfolding of the part-accumulating fold of `send_to_devices`: the parts
list grows by one ten-line block per registration token, in input order, all
blocks carrying the one bearer token of the call, and the counter adds the
token count. -/
theorem batch_parts_eq {D : Type} (ser : Body D → Str)
    (project_id oauth2_token : Str) (message : Message) (options : SendOptions)
    (data : Option D) :
    ∀ (registration_tokens : List Str) (xs : List Str) (n : Nat),
      batch_parts ser project_id oauth2_token message options data
        registration_tokens (xs, n) =
        (xs ++ registration_tokens.flatMap (fun r =>
          [['-', '-'] ++ BOUNDARY,
           "Content-Type: application/http".data,
           "Content-Transfer-Encoding: binary".data,
           "Authorization: Bearer ".data ++ oauth2_token,
           [],
           "POST /v1/projects/".data ++ project_id ++ "/messages:send".data,
           "Content-Type: application/json".data,
           "accept: application/json".data,
           [],
           ser { token := r, notification := message,
                 apns := some options.to_apns_payload, data := data }]),
         n + registration_tokens.length) := by
  intro regs
  induction regs with
  | nil => intro xs n; simp [batch_parts]
  | cons r rest ih =>
    intro xs n
    show batch_parts ser project_id oauth2_token message options data rest
        (add_part ser project_id oauth2_token xs
          { token := r, notification := message,
            apns := some options.to_apns_payload, data := data }, n + 1) = _
    rw [ih]
    simp [add_part, List.append_assoc]
    omega

/-- C7: for a non-empty token list the encoded batch body is exactly, per
token in order: the fixed boundary line, the application/http content type
header, the binary transfer encoding header, the outer Authorization Bearer
header carrying the call's single token, a blank line, the embedded POST
request line for the project, the JSON content-type and accept headers, a
blank line, and the serialized JSON body — all lines joined with CRLF, with
exactly one closing boundary line appended after all parts. -/
theorem claim_c7 {D : Type} (decS : Str → Option SendMessageSuccessResponse)
    (decE : Str → Option SendMessageErrorResponse)
    (decTop : Str → Option SendMessageErrorResponse)
    (ser : Body D → Str) (project_id oauth2_token : Str)
    (registration_tokens : List Str) (message : Message) (options : SendOptions)
    (data : Option D) (res : Response)
    (hne : registration_tokens ≠ []) :
    (send_to_devices decS decE decTop ser project_id oauth2_token
      registration_tokens message options data res).1 =
      some (List.intercalate CRLF
        (registration_tokens.flatMap (fun r =>
          [['-', '-'] ++ BOUNDARY,
           "Content-Type: application/http".data,
           "Content-Transfer-Encoding: binary".data,
           "Authorization: Bearer ".data ++ oauth2_token,
           [],
           "POST /v1/projects/".data ++ project_id ++ "/messages:send".data,
           "Content-Type: application/json".data,
           "accept: application/json".data,
           [],
           ser { token := r, notification := message,
                 apns := some options.to_apns_payload, data := data }]) ++
         [['-', '-'] ++ BOUNDARY ++ ['-', '-', '\r', '\n']])) := by
  have hlen : ¬ (0 + registration_tokens.length = 0) := by
    cases registration_tokens
    · exact absurd rfl hne
    · simp
  simp only [send_to_devices]
  rw [batch_parts_eq, if_neg hlen]
  simp [add_end_boundary]

/-- C7 evaluated on one registration token with the token-echoing
serializer: the encoded body is the ten part lines plus the single closing
boundary line, CRLF-joined. -/
theorem claim_c7_witness :
    (send_to_devices decNoneS decNoneE decNoneE serToken ['p'] ['t'] [['r']]
      wMsg wOpts none wRes200).1 =
      some (List.intercalate CRLF
        ([['r']].flatMap (fun r =>
          [['-', '-'] ++ BOUNDARY,
           "Content-Type: application/http".data,
           "Content-Transfer-Encoding: binary".data,
           "Authorization: Bearer ".data ++ ['t'],
           [],
           "POST /v1/projects/".data ++ ['p'] ++ "/messages:send".data,
           "Content-Type: application/json".data,
           "accept: application/json".data,
           [],
           serToken { token := r, notification := wMsg,
                      apns := some wOpts.to_apns_payload, data := none }]) ++
         [['-', '-'] ++ BOUNDARY ++ ['-', '-', '\r', '\n']])) :=
  claim_c7 decNoneS decNoneE decNoneE serToken ['p'] ['t'] [['r']]
    wMsg wOpts none wRes200 (by decide)

/-- Cases of the response dispatch: a status other than 200 or an unresolvable
boundary always gives a top-level error, and a per-item result list arises
only from status 200 with a resolved boundary. -/
theorem handle_response_cases (decS : Str → Option SendMessageSuccessResponse)
    (decE : Str → Option SendMessageErrorResponse)
    (decTop : Str → Option SendMessageErrorResponse)
    (n : Nat) (res : Response) :
    ((res.status ≠ 200 ∨ parse_boundary res.content_type = none) →
      ∃ er, handle_response decS decE decTop n res = .error er) ∧
    (∀ rs, handle_response decS decE decTop n res = .ok rs →
      res.status = 200 ∧ ∃ b, parse_boundary res.content_type = some b) := by
  constructor
  · intro h
    unfold handle_response
    split
    · rename_i hbeq hb
      exfalso
      simp only [beq_iff_eq] at hbeq
      rcases h with h | h
      · exact h hbeq
      · rw [h] at hb; cases hb
    · cases htop : decTop res.body with
      | some e => exact ⟨.SendMessage e, rfl⟩
      | none => exact ⟨.ResponseDeserialize, rfl⟩
  · intro rs hok
    unfold handle_response at hok
    split at hok
    · rename_i hbeq hb
      simp only [beq_iff_eq] at hbeq
      exact ⟨hbeq, _, hb⟩
    · exfalso
      cases htop : decTop res.body <;> rw [htop] at hok <;> cases hok

/-- C5: with at least one registration token (so that a request is issued at
all), a response whose status is not a success status, or whose content type
yields no resolvable boundary, makes `send_to_devices` return a single
top-level error, never a per-item result sequence; and a per-item result
sequence arises only from status 200 with a resolvable boundary. -/
theorem claim_c5 {D : Type} (decS : Str → Option SendMessageSuccessResponse)
    (decE : Str → Option SendMessageErrorResponse)
    (decTop : Str → Option SendMessageErrorResponse)
    (ser : Body D → Str) (project_id oauth2_token : Str)
    (registration_tokens : List Str) (message : Message) (options : SendOptions)
    (data : Option D) (res : Response)
    (hne : registration_tokens ≠ []) :
    ((¬ (200 ≤ res.status ∧ res.status < 300) ∨
        parse_boundary res.content_type = none) →
      ∃ er, (send_to_devices decS decE decTop ser project_id oauth2_token
        registration_tokens message options data res).2 = .error er) ∧
    (∀ rs, (send_to_devices decS decE decTop ser project_id oauth2_token
        registration_tokens message options data res).2 = .ok rs →
      res.status = 200 ∧ ∃ b, parse_boundary res.content_type = some b) := by
  have hlen : ¬ (0 + registration_tokens.length = 0) := by
    cases registration_tokens
    · exact absurd rfl hne
    · simp
  have hsnd : (send_to_devices decS decE decTop ser project_id oauth2_token
      registration_tokens message options data res).2 =
      handle_response decS decE decTop (0 + registration_tokens.length) res := by
    simp only [send_to_devices]
    rw [batch_parts_eq, if_neg hlen]
  rw [hsnd]
  constructor
  · intro h
    refine (handle_response_cases decS decE decTop
      (0 + registration_tokens.length) res).1 ?_
    rcases h with h | h
    · exact Or.inl (by omega)
    · exact Or.inr h
  · exact (handle_response_cases decS decE decTop
      (0 + registration_tokens.length) res).2

/-- C5 evaluated on a one-token batch answered with status 500: a single
top-level error. -/
theorem claim_c5_witness :
    ∃ er, (send_to_devices decNoneS decNoneE decNoneE serToken ['p'] ['t']
      [['r']] wMsg wOpts none wRes500).2 = .error er :=
  (claim_c5 decNoneS decNoneE decNoneE serToken ['p'] ['t'] [['r']]
    wMsg wOpts none wRes500 (by decide)).1 (Or.inl (by decide))

/-- C8 evaluated at the all-unset options: the emitted priority is 10. -/
theorem claim_c8_witness :
    (SendOptions.to_apns_payload ⟨none, none, none⟩).payload.aps.priority =
      some 10 := by
  obtain ⟨m, c, p, heq, hm01, hm1, hc01, hc1, hpl, hpn, hph⟩ :=
    claim_c8 ⟨none, none, none⟩
  rw [heq, hph (Or.inr rfl)]

/-- C2: for every signing model that lets the claims segment of the token it
produces decode back (the round trip jsonwebtoken + base64 + serde provide),
every clock reading below the u64 wrap, and every credential email and
audience, the token issued by `update_token` (a fresh `Payload::new` followed
by signing) carries claims with `exp - iat = 3600`,
`iss = sub = client_email`, `aud` the given audience, and `iat` the clock
reading at issuance. -/
theorem claim_c2 (enc : Payload → Str) (dec : Str → Option Payload)
    (clock : Nat) (client_email service_endpoint : Str) (cache : Option Str)
    (hclock : clock + 3600 < U64_MOD)
    (hround : dec (enc (Payload.new clock client_email service_endpoint)) =
      some (Payload.new clock client_email service_endpoint)) :
    ∃ p, dec (update_token enc clock client_email service_endpoint cache).1 =
        some p ∧
      p.exp - p.iat = 3600 ∧ p.iss = client_email ∧ p.sub = client_email ∧
      p.aud = service_endpoint ∧ p.iat = clock := by
  refine ⟨Payload.new clock client_email service_endpoint, hround, ?_, rfl,
    rfl, rfl, rfl⟩
  show (clock + 3600) % U64_MOD - clock = 3600
  rw [Nat.mod_eq_of_lt hclock]
  omega

/-- C2 evaluated at clock 1000 with the constant signing model. -/
theorem claim_c2_witness :
    ∃ p, decConst (update_token encConst 1000 ['e'] ['a'] none).1 = some p ∧
      p.exp - p.iat = 3600 ∧ p.iss = ['e'] ∧ p.sub = ['e'] ∧
      p.aud = ['a'] ∧ p.iat = 1000 :=
  claim_c2 encConst decConst 1000 ['e'] ['a'] none (by decide) rfl

/-- C3: `get_token` returns the cached token exactly when one is cached, its
claims decode, and the u64 computation `now() - iat` is defined and at most
3420; and it returns nothing — a defined non-value, never a fatal error — on
an empty cache, on a token whose claims segment fails to decode, and on a
decodable token older than 3420 seconds. -/
theorem claim_c3 (dec : Str → Option Payload) (clock : Nat)
    (cache : Option Str) :
    (∀ t, get_token dec clock cache = some (some t) ↔
      (cache = some t ∧ ∃ p d, dec t = some p ∧
        u64_sub clock p.iat = some d ∧ d ≤ 3420)) ∧
    (cache = none → get_token dec clock cache = some none) ∧
    (∀ t, cache = some t → dec t = none →
      get_token dec clock cache = some none) ∧
    (∀ t p d, cache = some t → dec t = some p →
      u64_sub clock p.iat = some d → 3420 < d →
      get_token dec clock cache = some none) := by
  refine ⟨?_, ?_, ?_, ?_⟩
  · intro t
    constructor
    · intro h
      cases hc : cache with
      | none => rw [hc] at h; cases h
      | some t0 =>
        rw [hc] at h
        cases hd : dec t0 with
        | none => simp [get_token, check, hd] at h
        | some p =>
          cases hs : u64_sub clock p.iat with
          | none => simp [get_token, check, hd, hs] at h
          | some d =>
            simp only [get_token, check, hd, hs, Option.map_some'] at h
            by_cases hle : d ≤ 3420
            · rw [if_pos (by simpa using hle)] at h
              obtain rfl : t0 = t := by simpa using h
              exact ⟨rfl, p, d, hd, hs, hle⟩
            · rw [if_neg (by simpa using hle)] at h
              simp at h
    · rintro ⟨hc, p, d, hd, hs, hle⟩
      rw [hc]
      simp only [get_token, check, hd, hs]
      simp [hle]
  · intro h; rw [h]; rfl
  · intro t hc hd
    rw [hc]
    simp [get_token, check, hd]
  · intro t p d hc hd hs hgt
    rw [hc]
    simp only [get_token, check, hd, hs]
    simp [Nat.not_le.mpr hgt]

/-- C3 evaluated on a cached token whose claims were issued at the current
clock: returned. -/
theorem claim_c3_witness :
    get_token decConst 1000 (some ['t']) = some (some ['t']) :=
  ((claim_c3 decConst 1000 (some ['t'])).1 ['t']).mpr
    ⟨rfl, Payload.new 1000 ['e'] ['a'], 0, rfl, rfl, by decide⟩

/-- C6: on the freshly constructed cache, before any issuance, `get_token`
returns nothing; and immediately after `update_token` at clock `clock` (with
a round-tripping signing model) `get_token` at the same clock returns the new
token, whose claims satisfy the defined u64 difference `now - iat = 0 ≤ 3420`. -/
theorem claim_c6 (dec : Str → Option Payload) (enc : Payload → Str)
    (clock : Nat) (client_email service_endpoint : Str)
    (hround : dec (enc (Payload.new clock client_email service_endpoint)) =
      some (Payload.new clock client_email service_endpoint)) :
    get_token dec clock initial_cache = some none ∧
    (get_token dec clock
        (update_token enc clock client_email service_endpoint
          initial_cache).2 =
      some (some (update_token enc clock client_email service_endpoint
          initial_cache).1) ∧
     ∃ p d, dec (update_token enc clock client_email service_endpoint
          initial_cache).1 = some p ∧
       u64_sub clock p.iat = some d ∧ d ≤ 3420) := by
  refine ⟨rfl, ?_, Payload.new clock client_email service_endpoint, 0,
    hround, ?_, by omega⟩
  · simp only [update_token, get_token, check, hround]
    have hs : u64_sub clock (Payload.new clock client_email
        service_endpoint).iat = some 0 := by
      simp [u64_sub, Payload.new]
    rw [hs]
    simp
  · simp [u64_sub, Payload.new, update_token]

/-- C6 evaluated with the constant signing model at clock 1000. -/
theorem claim_c6_witness :
    get_token decConst 1000 initial_cache = some none ∧
    (get_token decConst 1000
        (update_token encConst 1000 ['e'] ['a'] initial_cache).2 =
      some (some (update_token encConst 1000 ['e'] ['a'] initial_cache).1) ∧
     ∃ p d, decConst (update_token encConst 1000 ['e'] ['a']
          initial_cache).1 = some p ∧
       u64_sub 1000 p.iat = some d ∧ d ≤ 3420) :=
  claim_c6 decConst encConst 1000 ['e'] ['a'] rfl

/-- C10: the freshness check computes `now() - payload.iat` in u64
arithmetic: whenever the decoded `iat` is at most the clock reading the check
is defined (and classifies by comparing the difference with 3420), but
whenever the decoded `iat` strictly exceeds the clock the subtraction
underflows and the check has no defined value — it is not total over all
decodable tokens. -/
theorem claim_c10 (dec : Str → Option Payload) (clock : Nat) (t : Str)
    (p : Payload) (hdec : dec t = some p) :
    (p.iat ≤ clock →
      check dec clock t = some (decide (clock - p.iat ≤ 3420))) ∧
    (clock < p.iat → check dec clock t = none) := by
  constructor
  · intro h
    simp [check, hdec, u64_sub, h]
  · intro h
    simp [check, hdec, u64_sub, Nat.not_le.mpr h]

/-- C10 evaluated on a token issued at 1000: defined at clock 1000, undefined
(underflow) at clock 500. -/
theorem claim_c10_witness :
    check decConst 500 ['t'] = none :=
  (claim_c10 decConst 500 ['t'] (Payload.new 1000 ['e'] ['a']) rfl).2
    (by decide)

end FcmRust
